import Mathlib

/-!
Shallow embedding of the page-heuristic analyzer in `src/pages/WebTools.tsx`
(the `analyzeWebsite` handler, lines 105-227).  The analysis section is a
pure computation over the fetched `html` text and the `url` string, except
for one random draw `Math.random() * 3 + 0.5` (the synthetic load time).
We model that draw as an explicit parameter `loadTime : ℚ` (with the raw
`Math.random()` result `r ∈ [0,1)` made explicit where a claim needs it),
JavaScript strings as Lean `String` viewed through their character lists,
and the report / findings arrays as Lean lists.
-/

/-- JavaScript `String.prototype.includes` needs a prefix test at every
position; `isPrefOf pat s` is true when `pat` is a prefix of `s`. -/
def isPrefOf : List Char → List Char → Bool
  | [], _ => true
  | _ :: _, [] => false
  | a :: as, b :: bs => a == b && isPrefOf as bs

/-- True (`containsSub pat s`) when `pat` occurs as a contiguous substring
of `s` (the semantics of JavaScript `s.includes(pat)`). -/
def containsSub (pat : List Char) : List Char → Bool
  | [] => isPrefOf pat []
  | c :: cs => isPrefOf pat (c :: cs) || containsSub pat cs

/-- Model of `html.includes(pat)` from the source. -/
def includesStr (s pat : String) : Bool :=
  containsSub pat.data s.data

/-- Model of `url.startsWith(pat)` from the source. -/
def startsWithStr (s pat : String) : Bool :=
  isPrefOf pat.data s.data

/-- Model of `(html.match(/<img/g) || []).length`: the number of positions where the
literal `<img` begins (the pattern cannot overlap itself, so this equals the
regex global-match count). -/
def countSub (pat : List Char) : List Char → Nat
  | [] => 0
  | c :: cs => (if isPrefOf pat (c :: cs) then 1 else 0) + countSub pat cs

/-- UTF-8 byte length of a character list, the `size` of the `Blob` built
from the string in `new Blob([html]).size`. -/
def utf8Len (l : List Char) : Nat :=
  l.foldl (fun n c => n + c.utf8Size) 0

/-- JavaScript `x.toFixed(2)` for a nonnegative rational: round `x * 100`
to the nearest integer (half up, `⌊100 q + 1/2⌋`, computed on the reduced
numerator and denominator) and print with two decimal digits. -/
def toFixed2 (q : ℚ) : String :=
  let n : Nat := ((200 * q.num + (q.den : Int)).fdiv (2 * (q.den : Int))).toNat
  let frac : Nat := n % 100
  toString (n / 100) ++ "." ++
    (if frac < 10 then "0" ++ toString frac else toString frac)

/-- Model of `interface WebsiteReport` from the source: one metric row. -/
structure MetricResult where
  metric : String
  value : String
deriving DecidableEq, Repr

/-- The severity union type `"high" | "medium" | "low"` of the source. -/
inductive Severity where
  | high
  | medium
  | low
deriving DecidableEq, Repr

/-- Model of `interface WebsiteError` from the source: one finding row. -/
structure Finding where
  type : String
  description : String
  severity : Severity
deriving DecidableEq, Repr

/-- Model of `Math.random() * 3 + 0.5` with the raw draw `r` made explicit. -/
def loadTimeOf (r : ℚ) : ℚ :=
  r * 3 + 1 / 2

/-- Model of `new Blob([html]).size / 1024` from the source. -/
def htmlSize (html : String) : ℚ :=
  (utf8Len html.data : ℚ) / 1024

/-- Model of `html.includes('name="viewport"')` -/
def hasViewport (html : String) : Bool := includesStr html "name=\"viewport\""

/-- Model of `html.includes('rel="icon"') || html.includes('rel="shortcut icon"')` -/
def hasFavicon (html : String) : Bool :=
  includesStr html "rel=\"icon\"" || includesStr html "rel=\"shortcut icon\""

/-- Model of `html.includes('name="description"')` -/
def hasMetaDescription (html : String) : Bool :=
  includesStr html "name=\"description\""

/-- Model of `html.includes("<h1")` -/
def hasH1 (html : String) : Bool := includesStr html "<h1"

/-- Model of `html.includes('rel="canonical"')` -/
def hasCanonical (html : String) : Bool := includesStr html "rel=\"canonical\""

/-- Model of `url.startsWith('https://')` -/
def hasHttps (url : String) : Bool := startsWithStr url "https://"

/-- Model of `html.includes('robots.txt')` -/
def hasRobotsTxt (html : String) : Bool := includesStr html "robots.txt"

/-- Model of `html.includes('sitemap.xml')` -/
def hasSitemap (html : String) : Bool := includesStr html "sitemap.xml"

/-- Model of `html.includes('application/ld+json')` -/
def hasSchema (html : String) : Bool := includesStr html "application/ld+json"

/-- Model of `html.includes('property="og:')` -/
def hasOpenGraph (html : String) : Bool := includesStr html "property=\"og:"

/-- Model of `html.includes('name="twitter:')` -/
def hasTwitterCards (html : String) : Bool := includesStr html "name=\"twitter:"

/-- Model of `!html.includes('<img') || html.includes('alt="')` -/
def hasAltTags (html : String) : Bool :=
  !includesStr html "<img" || includesStr html "alt=\""

/-- Model of `html.includes('<html lang="')` -/
def hasLangAttribute (html : String) : Bool :=
  includesStr html "<html lang=\""

/-- Model of `html.includes('@context')` -/
def hasStructuredData (html : String) : Bool := includesStr html "@context"

/-- Model of `html.includes('amphtml')` -/
def hasAmpVersion (html : String) : Bool := includesStr html "amphtml"

/-- Model of `html.includes('manifest.json')` -/
def hasManifest (html : String) : Bool := includesStr html "manifest.json"

/-- Model of `const imagesCount = (html.match(/<img/g) || []).length` -/
def imagesCount (html : String) : Nat :=
  countSub "<img".data html.data

/-- Rendering (`"Present"`/`"Missing"`) of a boolean check. -/
def presentOf (b : Bool) : String :=
  if b then "Present" else "Missing"

/-- The `newReport` array literal of the source (19 rows, fixed order),
with the random load time passed in as `loadTime`. -/
def newReport (url html : String) (loadTime : ℚ) : List MetricResult :=
  [ ⟨"Page Load Time", toFixed2 loadTime ++ "s"⟩,
    ⟨"Page Size", toFixed2 (htmlSize html) ++ " KB"⟩,
    ⟨"Images Count", toString (imagesCount html)⟩,
    ⟨"Mobile Viewport", presentOf (hasViewport html)⟩,
    ⟨"Meta Description", presentOf (hasMetaDescription html)⟩,
    ⟨"Favicon", presentOf (hasFavicon html)⟩,
    ⟨"H1 Tag", presentOf (hasH1 html)⟩,
    ⟨"Canonical Tag", presentOf (hasCanonical html)⟩,
    ⟨"HTTPS", if hasHttps url then "Yes" else "No"⟩,
    ⟨"Robots.txt", presentOf (hasRobotsTxt html)⟩,
    ⟨"Sitemap", presentOf (hasSitemap html)⟩,
    ⟨"Schema Markup", presentOf (hasSchema html)⟩,
    ⟨"Open Graph Tags", presentOf (hasOpenGraph html)⟩,
    ⟨"Twitter Cards", presentOf (hasTwitterCards html)⟩,
    ⟨"Image Alt Tags", presentOf (hasAltTags html)⟩,
    ⟨"HTML Lang Attribute", presentOf (hasLangAttribute html)⟩,
    ⟨"Structured Data", presentOf (hasStructuredData html)⟩,
    ⟨"AMP Version", presentOf (hasAmpVersion html)⟩,
    ⟨"Web App Manifest", presentOf (hasManifest html)⟩ ]

/-- The sequence of `newErrors.push` calls of the source, in program order:
each conditional block contributes its finding or nothing. -/
def newErrors (url html : String) (loadTime : ℚ) : List Finding :=
  (if hasHttps url then []
    else [⟨"Security", "Website is not using HTTPS", Severity.high⟩]) ++
  (if loadTime > 2 then
    [⟨"Performance", "Page load time is above 2 seconds", Severity.high⟩]
    else []) ++
  (if hasViewport html then []
    else [⟨"Mobile", "Missing viewport meta tag for mobile optimization",
            Severity.high⟩]) ++
  (if hasMetaDescription html then []
    else [⟨"SEO", "Missing meta description", Severity.medium⟩]) ++
  (if hasH1 html then []
    else [⟨"SEO", "Missing H1 heading", Severity.medium⟩]) ++
  (if hasSchema html then []
    else [⟨"SEO", "Missing Schema markup", Severity.medium⟩]) ++
  (if hasOpenGraph html then []
    else [⟨"Social", "Missing Open Graph tags", Severity.medium⟩]) ++
  (if hasAltTags html then []
    else [⟨"Accessibility", "Images missing alt tags", Severity.high⟩]) ++
  (if hasLangAttribute html then []
    else [⟨"Accessibility", "Missing HTML lang attribute", Severity.medium⟩])

/-- The whole analysis step: the report and the findings, as set into
`setReport`/`setErrors` by the source. -/
def analyze (url html : String) (loadTime : ℚ) :
    List MetricResult × List Finding :=
  (newReport url html loadTime, newErrors url html loadTime)

/-- The fixed presentation order of the 19 metric names emitted by the
analyzer. -/
def metricNames : List String :=
  [ "Page Load Time", "Page Size", "Images Count", "Mobile Viewport",
    "Meta Description", "Favicon", "H1 Tag", "Canonical Tag", "HTTPS",
    "Robots.txt", "Sitemap", "Schema Markup", "Open Graph Tags",
    "Twitter Cards", "Image Alt Tags", "HTML Lang Attribute",
    "Structured Data", "AMP Version", "Web App Manifest" ]

/-- The nine findings the source can ever push, in rule order. -/
def nineFindings : List Finding :=
  [ ⟨"Security", "Website is not using HTTPS", Severity.high⟩,
    ⟨"Performance", "Page load time is above 2 seconds", Severity.high⟩,
    ⟨"Mobile", "Missing viewport meta tag for mobile optimization",
      Severity.high⟩,
    ⟨"SEO", "Missing meta description", Severity.medium⟩,
    ⟨"SEO", "Missing H1 heading", Severity.medium⟩,
    ⟨"SEO", "Missing Schema markup", Severity.medium⟩,
    ⟨"Social", "Missing Open Graph tags", Severity.medium⟩,
    ⟨"Accessibility", "Images missing alt tags", Severity.high⟩,
    ⟨"Accessibility", "Missing HTML lang attribute", Severity.medium⟩ ]

/-- One rule of the spec's findings-derivation table: emit the finding
when the rule's failure condition holds. -/
def ruleEmit (fail : Bool) (f : Finding) : List Finding :=
  if fail then [f] else []

/-- The findings-derivation table as the spec words it: nine independent
rules evaluated in a fixed order, each emitting one specific finding when
its check fails (rule 1 on the url prefix, rule 2 on the synthetic load
time, rules 3-9 on the substring checks). -/
def findingsRules (url html : String) (loadTime : ℚ) : List Finding :=
  ruleEmit (!startsWithStr url "https://")
    ⟨"Security", "Website is not using HTTPS", Severity.high⟩ ++
  ruleEmit (decide (loadTime > 2))
    ⟨"Performance", "Page load time is above 2 seconds", Severity.high⟩ ++
  ruleEmit (!includesStr html "name=\"viewport\"")
    ⟨"Mobile", "Missing viewport meta tag for mobile optimization",
      Severity.high⟩ ++
  ruleEmit (!includesStr html "name=\"description\"")
    ⟨"SEO", "Missing meta description", Severity.medium⟩ ++
  ruleEmit (!includesStr html "<h1")
    ⟨"SEO", "Missing H1 heading", Severity.medium⟩ ++
  ruleEmit (!includesStr html "application/ld+json")
    ⟨"SEO", "Missing Schema markup", Severity.medium⟩ ++
  ruleEmit (!includesStr html "property=\"og:")
    ⟨"Social", "Missing Open Graph tags", Severity.medium⟩ ++
  ruleEmit (!(!includesStr html "<img" || includesStr html "alt=\""))
    ⟨"Accessibility", "Images missing alt tags", Severity.high⟩ ++
  ruleEmit (!includesStr html "<html lang=\"")
    ⟨"Accessibility", "Missing HTML lang attribute", Severity.medium⟩

lemma mem_ite_list {α : Type} {c : Prop} [Decidable c] {l1 l2 : List α}
    {f : α} :
    (f ∈ if c then l1 else l2) ↔ (c ∧ f ∈ l1) ∨ (¬c ∧ f ∈ l2) := by
  split <;> rename_i h <;> simp [h]

lemma mem_newErrors_iff (url html : String) (t : ℚ) (f : Finding) :
    f ∈ newErrors url html t ↔
      (hasHttps url = false ∧
        f = ⟨"Security", "Website is not using HTTPS", Severity.high⟩) ∨
      (t > 2 ∧
        f = ⟨"Performance", "Page load time is above 2 seconds",
              Severity.high⟩) ∨
      (hasViewport html = false ∧
        f = ⟨"Mobile", "Missing viewport meta tag for mobile optimization",
              Severity.high⟩) ∨
      (hasMetaDescription html = false ∧
        f = ⟨"SEO", "Missing meta description", Severity.medium⟩) ∨
      (hasH1 html = false ∧
        f = ⟨"SEO", "Missing H1 heading", Severity.medium⟩) ∨
      (hasSchema html = false ∧
        f = ⟨"SEO", "Missing Schema markup", Severity.medium⟩) ∨
      (hasOpenGraph html = false ∧
        f = ⟨"Social", "Missing Open Graph tags", Severity.medium⟩) ∨
      (hasAltTags html = false ∧
        f = ⟨"Accessibility", "Images missing alt tags", Severity.high⟩) ∨
      (hasLangAttribute html = false ∧
        f = ⟨"Accessibility", "Missing HTML lang attribute",
              Severity.medium⟩) := by
  simp [newErrors, List.mem_append, mem_ite_list]

lemma ite_nil_eq_ruleEmit (b : Bool) (x : Finding) :
    (if b then ([] : List Finding) else [x]) = ruleEmit (!b) x := by
  cases b <;> rfl

lemma ite_prop_eq_ruleEmit (c : Prop) [Decidable c] (x : Finding) :
    (if c then [x] else ([] : List Finding)) = ruleEmit (decide c) x := by
  by_cases h : c <;> simp [ruleEmit, h]

lemma ite_list_length_le_one {c : Prop} [Decidable c] {l1 l2 : List Finding}
    (h1 : l1.length ≤ 1) (h2 : l2.length ≤ 1) :
    (if c then l1 else l2).length ≤ 1 := by
  split <;> assumption

lemma newErrors_length_le (url html : String) (t : ℚ) :
    (newErrors url html t).length ≤ 9 := by
  unfold newErrors
  split_ifs <;> simp

lemma toFixed2_htmlSize_empty : toFixed2 (htmlSize "") = "0.00" := by
  have h0 : htmlSize "" = 0 := by simp [htmlSize]; decide
  rw [h0]; decide

/-- C1 counterexample: with empty html the "Image Alt Tags" metric is
"Present" (the check is vacuously true when no `<img` occurs), not
"Missing" as the claim demands of all 18 boolean metrics. -/
theorem c1_counterexample :
    (newReport "http://a.com" "" 1)[14]? =
      some ⟨"Image Alt Tags", "Present"⟩ ∧ ("Present" : String) ≠ "Missing" :=
  ⟨rfl, by decide⟩

/-- C1 (amended): for every url and every load-time draw, analysing empty
html yields Page Size "0.00 KB", Images Count "0", HTTPS determined solely
by the url prefix, "Image Alt Tags" = "Present" (vacuously true), and all
remaining boolean metrics "Missing". -/
theorem c1_empty_html_report (url : String) (t : ℚ) :
    newReport url "" t =
      [ ⟨"Page Load Time", toFixed2 t ++ "s"⟩,
        ⟨"Page Size", "0.00 KB"⟩,
        ⟨"Images Count", "0"⟩,
        ⟨"Mobile Viewport", "Missing"⟩,
        ⟨"Meta Description", "Missing"⟩,
        ⟨"Favicon", "Missing"⟩,
        ⟨"H1 Tag", "Missing"⟩,
        ⟨"Canonical Tag", "Missing"⟩,
        ⟨"HTTPS", if hasHttps url then "Yes" else "No"⟩,
        ⟨"Robots.txt", "Missing"⟩,
        ⟨"Sitemap", "Missing"⟩,
        ⟨"Schema Markup", "Missing"⟩,
        ⟨"Open Graph Tags", "Missing"⟩,
        ⟨"Twitter Cards", "Missing"⟩,
        ⟨"Image Alt Tags", "Present"⟩,
        ⟨"HTML Lang Attribute", "Missing"⟩,
        ⟨"Structured Data", "Missing"⟩,
        ⟨"AMP Version", "Missing"⟩,
        ⟨"Web App Manifest", "Missing"⟩ ] := by
  simp only [newReport, toFixed2_htmlSize_empty]
  simp +decide [List.cons.injEq, MetricResult.mk.injEq, presentOf]

/-- C2 counterexample: both 1 and 3 are reachable load-time draws, and the
two runs on the same inputs then disagree on the findings list (the
Performance finding appears only in the second), so two runs are not
identical up to the Page Load Time metric alone. -/
theorem c2_counterexample :
    loadTimeOf (1/6) = 1 ∧ loadTimeOf (5/6) = 3 ∧
    newErrors "https://a.com" "" 1 ≠ newErrors "https://a.com" "" 3 := by
  refine ⟨by norm_num [loadTimeOf], by norm_num [loadTimeOf], ?_⟩
  have h1 : ¬((1 : ℚ) > 2) := by norm_num
  have h3 : (3 : ℚ) > 2 := by norm_num
  simp +decide [newErrors, h1, h3]

/-- C2 (amended): two runs on identical inputs agree on the metric-name
column, on every metric row after the Page Load Time row, and on all
findings other than the Performance "Page load time is above 2 seconds"
finding (whose presence, like the Page Load Time value, depends on the
random draw). -/
theorem c2_deterministic_modulo_load_time (url html : String) (t1 t2 : ℚ) :
    (newReport url html t1).map MetricResult.metric =
      (newReport url html t2).map MetricResult.metric ∧
    (newReport url html t1).drop 1 = (newReport url html t2).drop 1 ∧
    (newErrors url html t1).filter (fun f => f.type != "Performance") =
      (newErrors url html t2).filter (fun f => f.type != "Performance") := by
  refine ⟨rfl, rfl, ?_⟩
  have h : ∀ t : ℚ,
      (if t > 2 then
        [(⟨"Performance", "Page load time is above 2 seconds",
            Severity.high⟩ : Finding)]
        else []).filter (fun f => f.type != "Performance") = [] := by
    intro t; split <;> rfl
  simp only [newErrors, List.filter_append]
  rw [h t1, h t2]

/-- C3: every report lists exactly the 19 fixed metric names, in the same
fixed order on every call, with no duplicates. -/
theorem c3_metric_names_fixed (url html : String) (t : ℚ) :
    (newReport url html t).map MetricResult.metric = metricNames ∧
    metricNames.length = 19 ∧ metricNames.Nodup :=
  ⟨rfl, rfl, by decide⟩

/-- C4: the findings list equals the nine fixed rules of the spec evaluated
in order (rule 1 on the url prefix, rule 2 on the load-time draw, rules 3-9
on the substring checks), and no finding outside the nine rule findings is
ever emitted. -/
theorem c4_findings_rules (url html : String) (t : ℚ) :
    newErrors url html t = findingsRules url html t ∧
    ∀ f ∈ newErrors url html t, f ∈ nineFindings := by
  constructor
  · simp only [newErrors, findingsRules, hasHttps, hasViewport,
      hasMetaDescription, hasH1, hasSchema, hasOpenGraph, hasAltTags,
      hasLangAttribute, ite_nil_eq_ruleEmit, ite_prop_eq_ruleEmit]
  · intro f hf
    rw [mem_newErrors_iff] at hf
    rcases hf with ⟨_, rfl⟩|⟨_, rfl⟩|⟨_, rfl⟩|⟨_, rfl⟩|⟨_, rfl⟩|⟨_, rfl⟩|
      ⟨_, rfl⟩|⟨_, rfl⟩|⟨_, rfl⟩ <;> decide

/-- C5: the "Image Alt Tags" metric (row 14) is "Present" exactly when html
lacks "<img" or contains an alt attribute opener; when html has an image
and no alt attribute the metric is "Missing" and the Accessibility/high
finding is emitted. -/
theorem c5_image_alt_tags (url html : String) (t : ℚ) :
    ((newReport url html t)[14]?.map MetricResult.value = some "Present" ↔
      (includesStr html "<img" = false ∨ includesStr html "alt=\"" = true)) ∧
    (includesStr html "<img" = true → includesStr html "alt=\"" = false →
      (newReport url html t)[14]?.map MetricResult.value = some "Missing" ∧
      (⟨"Accessibility", "Images missing alt tags", Severity.high⟩ :
        Finding) ∈ newErrors url html t) := by
  have h14 : (newReport url html t)[14]? =
      some ⟨"Image Alt Tags", presentOf (hasAltTags html)⟩ := rfl
  constructor
  · rw [h14]
    cases hi : includesStr html "<img" <;>
      cases ha : includesStr html "alt=\"" <;>
        simp [presentOf, hasAltTags, hi, ha]
  · intro h1 h2
    have hat : hasAltTags html = false := by simp [hasAltTags, h1, h2]
    refine ⟨by rw [h14]; simp [presentOf, hat], ?_⟩
    rw [mem_newErrors_iff]
    exact Or.inr (Or.inr (Or.inr (Or.inr (Or.inr (Or.inr (Or.inr (Or.inl
      ⟨hat, rfl⟩)))))))

/-- C5 witness: the scenario html with one image and no alt attribute. -/
theorem c5_image_alt_tags_witness :
    includesStr "<img src=x>" "<img" = true ∧
    includesStr "<img src=x>" "alt=\"" = false ∧
    (newReport "http://a.com" "<img src=x>" 1)[14]?.map MetricResult.value =
      some "Missing" ∧
    (⟨"Accessibility", "Images missing alt tags", Severity.high⟩ :
      Finding) ∈ newErrors "http://a.com" "<img src=x>" 1 := by
  have h := (c5_image_alt_tags "http://a.com" "<img src=x>" 1).2
    (by decide) (by decide)
  exact ⟨by decide, by decide, h.1, h.2⟩

/-- C6: the scenario url "http://example.com" with html
"<html><body>hi</body></html>": HTTPS "No", H1 "Missing", Schema Markup,
Open Graph Tags, Twitter Cards, Structured Data, AMP Version and Web App
Manifest all "Missing", Image Alt Tags "Present", and the findings contain
the Security/high and the SEO/medium missing-H1 entries. -/
theorem c6_scenario_http_example (t : ℚ) :
    (newReport "http://example.com" "<html><body>hi</body></html>" t)[8]?.map
        MetricResult.value = some "No" ∧
    (newReport "http://example.com" "<html><body>hi</body></html>" t)[6]?.map
        MetricResult.value = some "Missing" ∧
    (newReport "http://example.com" "<html><body>hi</body></html>" t)[11]?.map
        MetricResult.value = some "Missing" ∧
    (newReport "http://example.com" "<html><body>hi</body></html>" t)[12]?.map
        MetricResult.value = some "Missing" ∧
    (newReport "http://example.com" "<html><body>hi</body></html>" t)[13]?.map
        MetricResult.value = some "Missing" ∧
    (newReport "http://example.com" "<html><body>hi</body></html>" t)[16]?.map
        MetricResult.value = some "Missing" ∧
    (newReport "http://example.com" "<html><body>hi</body></html>" t)[17]?.map
        MetricResult.value = some "Missing" ∧
    (newReport "http://example.com" "<html><body>hi</body></html>" t)[18]?.map
        MetricResult.value = some "Missing" ∧
    (newReport "http://example.com" "<html><body>hi</body></html>" t)[14]?.map
        MetricResult.value = some "Present" ∧
    (⟨"Security", "Website is not using HTTPS", Severity.high⟩ : Finding) ∈
      newErrors "http://example.com" "<html><body>hi</body></html>" t ∧
    (⟨"SEO", "Missing H1 heading", Severity.medium⟩ : Finding) ∈
      newErrors "http://example.com" "<html><body>hi</body></html>" t := by
  refine ⟨rfl, rfl, rfl, rfl, rfl, rfl, rfl, rfl, rfl, ?_, ?_⟩
  · rw [mem_newErrors_iff]
    exact Or.inl ⟨by decide, rfl⟩
  · rw [mem_newErrors_iff]
    exact Or.inr (Or.inr (Or.inr (Or.inr (Or.inl ⟨by decide, rfl⟩))))

/-- C7: the analysis is a total function of its string inputs and the
draw: it always returns the 19-row report paired with the findings list,
which has at most 9 entries. -/
theorem c7_analyzer_total (url html : String) (t : ℚ) :
    analyze url html t = (newReport url html t, newErrors url html t) ∧
    (analyze url html t).1.length = 19 ∧
    (analyze url html t).2.length ≤ 9 :=
  ⟨rfl, rfl, newErrors_length_le url html t⟩

/-- C8: for any raw draw r in [0,1), the synthetic load time 3r + 1/2 lies
in [1/2, 7/2), and the Page Load Time row is the same function of the draw
whatever the url and html inputs are. -/
theorem c8_load_time_range (r : ℚ) (url1 html1 url2 html2 : String)
    (h0 : 0 ≤ r) (h1 : r < 1) :
    1/2 ≤ loadTimeOf r ∧ loadTimeOf r < 7/2 ∧
    (newReport url1 html1 (loadTimeOf r))[0]? =
      (newReport url2 html2 (loadTimeOf r))[0]? := by
  refine ⟨?_, ?_, rfl⟩ <;> simp only [loadTimeOf] <;> linarith

/-- C8 witness: the draw 1/2 gives load time 2, inside the interval. -/
theorem c8_load_time_range_witness :
    1/2 ≤ loadTimeOf (1/2) ∧ loadTimeOf (1/2) < 7/2 ∧
    (newReport "https://a.com" "x" (loadTimeOf (1/2)))[0]? =
      (newReport "http://b.org" "y" (loadTimeOf (1/2)))[0]? :=
  c8_load_time_range (1/2) "https://a.com" "x" "http://b.org" "y"
    (by norm_num) (by norm_num)

/-- C9: one draw feeds both outputs: the Page Load Time row renders the
drawn value, the Performance finding is present exactly when that same
value exceeds 2, and consequently the findings are not a function of
(url, html) alone (same inputs, two reachable draws, different findings). -/
theorem c9_single_draw_consistency (url html : String) (t : ℚ) :
    (newReport url html t)[0]? =
      some ⟨"Page Load Time", toFixed2 t ++ "s"⟩ ∧
    ((⟨"Performance", "Page load time is above 2 seconds", Severity.high⟩ :
        Finding) ∈ newErrors url html t ↔ t > 2) ∧
    loadTimeOf (1/6) = 1 ∧ loadTimeOf (5/6) = 3 ∧
    newErrors "https://e.org" "p" 1 ≠ newErrors "https://e.org" "p" 3 := by
  refine ⟨rfl, ?_, by norm_num [loadTimeOf], by norm_num [loadTimeOf], ?_⟩
  · rw [mem_newErrors_iff]
    constructor
    · rintro (⟨_, h⟩|⟨ht, _⟩|⟨_, h⟩|⟨_, h⟩|⟨_, h⟩|⟨_, h⟩|⟨_, h⟩|⟨_, h⟩|⟨_, h⟩)
      · exact absurd h (by decide)
      · exact ht
      all_goals exact absurd h (by decide)
    · intro ht
      exact Or.inr (Or.inl ⟨ht, rfl⟩)
  · have h1 : ¬((1 : ℚ) > 2) := by norm_num
    have h3 : (3 : ℚ) > 2 := by norm_num
    simp +decide [newErrors, h1, h3]

/-- C10: every finding ever emitted has severity high or medium (never
low), whatever the inputs and the draw, and at most nine findings are
produced per run. -/
theorem c10_severity_invariant (url html : String) (t : ℚ) :
    (∀ f ∈ newErrors url html t,
      f.severity = Severity.high ∨ f.severity = Severity.medium) ∧
    (newErrors url html t).length ≤ 9 := by
  refine ⟨?_, newErrors_length_le url html t⟩
  intro f hf
  rw [mem_newErrors_iff] at hf
  rcases hf with ⟨_, rfl⟩|⟨_, rfl⟩|⟨_, rfl⟩|⟨_, rfl⟩|⟨_, rfl⟩|⟨_, rfl⟩|
    ⟨_, rfl⟩|⟨_, rfl⟩|⟨_, rfl⟩ <;> simp
